import Mathlib

/-!
Verification of the OTP backend (`src/index.js`).

The source is a small Express application: an in-memory OTP store
(`const otpStore = {}`, line 42), a `POST /send-otp` handler that generates a
six-digit code and stores it before calling the SMS provider (lines 62-79), a
`POST /verify-otp` handler that checks the submitted code against the store
with JavaScript loose equality and deletes the entry on success (lines 82-93),
a JWT authentication middleware (lines 45-56) and a `POST /add-student`
handler performing validation, an existence check and an insert (lines 96-137).

The embedding below is shallow: the store is a total function
`String → Option Int` (a JS object with number values, `none` = key absent),
JavaScript's `Math.random()` output is an explicit rational parameter
`q ∈ [0,1)`, the external collaborators (SMS provider, Supabase, the
`jsonwebtoken` library) are modelled by explicit outcome parameters or, for
the token issuer, from the specification's contract.
-/

namespace SchoolAi

/-- A JavaScript value as it can appear as the submitted `otp` field of a
JSON request body: a number or a string.  Codes stored by the server are
always integers, so an integer component suffices for the numeric case. -/
inductive JSVal where
  | num (n : Int)
  | str (s : String)
  deriving DecidableEq, Repr

/-- JavaScript `ToNumber` on the fragment of strings relevant to OTP
comparison: after trimming, the empty string converts to `0` and a string of
decimal digits converts to its decimal value; every other string is treated
as `NaN` (`none`), which compares unequal to every number. -/
def jsToNumber (s : String) : Option Int :=
  let t := ((s.data.dropWhile Char.isWhitespace).reverse.dropWhile
      Char.isWhitespace).reverse
  if t = [] then some 0
  else if t.all Char.isDigit then
    some ((t.foldl (fun a c => a * 10 + (c.toNat - 48)) 0 : Nat) : Int)
  else none

/-- JavaScript loose equality `c == v` between a number `c` (a stored OTP
code) and a request-body value `v`: number-to-number compares the values,
number-to-string converts the string with `ToNumber` first. -/
def looseEq (c : Int) (v : JSVal) : Bool :=
  match v with
  | .num n => c == n
  | .str s =>
    match jsToNumber s with
    | some n => c == n
    | none => false

/-- The in-memory OTP store (`const otpStore = {}`, line 42): a mapping from
phone identifier to the pending code, `none` when no entry exists. -/
def OtpStore : Type := String → Option Int

/-- JavaScript truthiness of `otpStore[phone]`: `undefined` (absent key) is
falsy, a number is falsy exactly when it is `0` (stored codes are integers,
never `NaN`). -/
def jsTruthy : Option Int → Bool
  | none => false
  | some c => c != 0

/-- Loose equality `otpStore[phone] == otp` lifted to the optional lookup
result; an absent entry compares unequal (in the source this branch is
unreachable because the truthiness guard short-circuits first). -/
def looseEqOpt : Option Int → JSVal → Bool
  | none, _ => false
  | some c, v => looseEq c v

/-- Code generation of `POST /send-otp`, line 67:
`Math.floor(100000 + Math.random() * 900000)`, with the `Math.random()`
result made explicit as a rational `q` (uniform on `[0,1)`). -/
def genOtp (q : ℚ) : Int := ⌊(100000 : ℚ) + q * 900000⌋

/-- OTP Registry `issue` (lines 67-68 of `POST /send-otp`): generate the code
from the random sample `q`, store it under `phone` (overwriting any previous
entry) and return it. -/
def issue (store : OtpStore) (phone : String) (q : ℚ) : Int × OtpStore :=
  let otp := genOtp q
  (otp, fun r => if r = phone then some otp else store r)

/-- OTP Registry `verify` (lines 86-92 of `POST /verify-otp`):
`if (otpStore[phone] && otpStore[phone] == otp) { delete otpStore[phone]; ... }`.
Returns the success flag together with the store after the call: on success
the entry is deleted, otherwise the store is returned unchanged. -/
def verify (store : OtpStore) (phone : String) (otp : JSVal) : Bool × OtpStore :=
  if jsTruthy (store phone) && looseEqOpt (store phone) otp then
    (true, fun r => if r = phone then none else store r)
  else
    (false, store)

/-- Registry invariant: every stored code is a six-digit integer in
`[100000, 999999]` (the image of `genOtp` on `[0,1)`). -/
def ValidStore (store : OtpStore) : Prop :=
  ∀ p c, store p = some c → 100000 ≤ c ∧ c ≤ 999999

/-! ### Token Issuer

The signing and verification themselves live in the external `jsonwebtoken`
library (the source only calls `jwt.sign({phone}, JWT_SECRET, {expiresIn:
"24h"})` on line 88 and `jwt.verify(token, JWT_SECRET, ...)` on line 51), so
the Token Issuer is modelled from the specification's contract (§4.2). -/

/-- Authentication failure of the Token Issuer: an invalid signature and an
elapsed expiry are reported identically. -/
inductive AuthError where
  | ExpiredOrInvalid
  deriving DecidableEq, Repr

/-- Modelled from the spec: the `jsonwebtoken` library's token object is not
part of this repository.  A signed bearer token carrying the `phone` claim,
the issuance time `iat`, the expiry `exp` (seconds), and a signature over the
payload modelled by recording the signing secret (an unforgeable MAC: the
signature checks out exactly against the secret that produced it). -/
structure AuthToken where
  phone : String
  iat : Int
  exp : Int
  sig : String
  deriving DecidableEq, Repr

/-- Modelled from the spec (§4.2): `issue(claims) -> token` signs the claims
with the process-wide secret and a fixed 24-hour (86400 s) expiry from the
issuance time `now` (source line 88: `expiresIn: "24h"`). -/
def issueToken (secret phone : String) (now : Int) : AuthToken :=
  { phone := phone, iat := now, exp := now + 86400, sig := secret }

/-- Modelled from the spec (§4.2): `verify(token) -> claims | AuthError`
fails with `ExpiredOrInvalid` when the signature does not verify or the
expiry has elapsed (clock past issuance + 24h); otherwise it returns the
embedded claims. -/
def verifyToken (secret : String) (tok : AuthToken) (now : Int) :
    Except AuthError String :=
  if tok.sig = secret ∧ now ≤ tok.exp then .ok tok.phone
  else .error .ExpiredOrInvalid

/-! ### Authentication middleware and the `/add-student` route -/

/-- JavaScript `String.prototype.split` with a single-character separator,
on the character list of the string: `"".split(c)` is `[""]`, and every
occurrence of the separator starts a new (possibly empty) field. -/
def splitOnChar (c : Char) : List Char → List (List Char)
  | [] => [[]]
  | x :: xs =>
    let r := splitOnChar c xs
    if x = c then [] :: r
    else
      match r with
      | [] => [[x]]
      | y :: ys => (x :: y) :: ys

/-- The JWT middleware `authenticateToken` (lines 45-56).  The outcome of the
library call `jwt.verify(token, JWT_SECRET, cb)` is abstracted as the function
argument `jwtVerify` from the extracted token string to the claims or an
error.  A missing (or empty, hence falsy) header or one not starting with
`"Bearer "` yields 401; a present, well-formed header whose token fails
verification yields 403; otherwise the claims are passed on to the handler.
The string operations `h.startsWith("Bearer ")` and `h.split(" ")[1]` are
modelled on the character list of the header. -/
def authenticateToken (jwtVerify : String → Except AuthError String)
    (authHeader : Option String) : Except Nat String :=
  match authHeader with
  | none => .error 401
  | some h =>
    if "Bearer ".data.isPrefixOf h.data then
      match jwtVerify (String.mk ((splitOnChar ' ' h.data).getD 1 [])) with
      | .error _ => .error 403
      | .ok claims => .ok claims
    else .error 401

/-- Request body of `POST /add-student` (line 99): each field is either
absent (`none`) or a string.  The source destructures
`{ name, phone, email, class_name, section }`; `section` is a reserved word
in Lean, hence the field name `sectionF`. -/
structure StudentBody where
  name : Option String
  phone : Option String
  email : Option String
  class_name : Option String
  sectionF : Option String
  deriving DecidableEq, Repr

/-- JavaScript truthiness of an optional string field: absent (`undefined`)
and the empty string are falsy. -/
def jsStrTruthy : Option String → Bool
  | none => false
  | some s => !s.isEmpty

/-- A student record as stored by the Credential Store (the `students`
table); the store itself is external, so rows are opaque data here. -/
structure Student where
  name : String
  phone : String
  email : Option String
  class_name : String
  sectionF : String
  deriving DecidableEq, Repr

/-- Outcome of the existence check
`supabase.from("students").select("*").or(...).single()` (lines 107-111),
an external call: `found r` is `{data: r, error: null}`, `noRow` is
`{data: null, error: {code: "PGRST116"}}` (the PostgREST "no rows" code), and
`err c` is `{data: null, error: {code: c}}` for any other failure. -/
inductive CheckOutcome where
  | found (r : Student)
  | noRow
  | err (code : String)
  deriving DecidableEq, Repr

/-- Outcome of the external insert call (lines 123-125): the returned data on
success, or an error message. -/
inductive InsertOutcome where
  | ok (data : List Student)
  | fail (msg : String)
  deriving DecidableEq, Repr

/-- An HTTP response of the `/add-student` route, reduced to what the claims
observe: the status code of an error envelope, or the success payload. -/
inductive HttpResp where
  | success (data : List Student)
  | error (status : Nat)
  deriving DecidableEq, Repr

/-- The `POST /add-student` handler body (lines 97-136), after the middleware
has passed.  Returns the response together with a flag that is `true` exactly
when the Credential Store was contacted (the existence check of lines
107-111 runs whenever validation passes).  The external outcomes of the
existence check and of the insert are explicit arguments. -/
def addStudentHandler (body : StudentBody) (check : CheckOutcome)
    (ins : InsertOutcome) : HttpResp × Bool :=
  if !(jsStrTruthy body.name && jsStrTruthy body.phone &&
       jsStrTruthy body.class_name && jsStrTruthy body.sectionF) then
    (.error 400, false)
  else
    match check with
    | .found _ => (.error 409, true)
    | .err code =>
      if code ≠ "PGRST116" then (.error 500, true)
      else
        match ins with
        | .ok d => (.success d, true)
        | .fail _ => (.error 500, true)
    | .noRow =>
      match ins with
      | .ok d => (.success d, true)
      | .fail _ => (.error 500, true)

/-- The full `/add-student` route (line 96): the `authenticateToken`
middleware runs first, and the handler body — and with it any store access —
only runs when the middleware called `next()`. -/
def addStudentRoute (jwtVerify : String → Except AuthError String)
    (authHeader : Option String) (body : StudentBody) (check : CheckOutcome)
    (ins : InsertOutcome) : HttpResp × Bool :=
  match authenticateToken jwtVerify authHeader with
  | .error status => (.error status, false)
  | .ok _ => addStudentHandler body check ins

/-! ### The `/send-otp` handler -/

/-- Observable result of `POST /send-otp`: 200 success, 400 missing phone, or
500 when the SMS provider call throws (`DeliveryError`). -/
inductive SendResult where
  | okSent
  | badRequest
  | deliveryError
  deriving DecidableEq, Repr

/-- The `POST /send-otp` handler (lines 62-79): reject a falsy `phone` with
400; otherwise generate the code, store it (lines 67-68), then call the SMS
provider — whose success is the explicit argument `deliveryOk` — and report
500 on failure.  The store mutation precedes the provider call and is not
rolled back on the error path. -/
def sendOtpHandler (store : OtpStore) (phone : Option String) (q : ℚ)
    (deliveryOk : Bool) : SendResult × OtpStore :=
  match phone with
  | none => (.badRequest, store)
  | some p =>
    if p.isEmpty then (.badRequest, store)
    else
      let otp := genOtp q
      let store1 : OtpStore := fun r => if r = p then some otp else store r
      if deliveryOk then (.okSent, store1) else (.deliveryError, store1)

/-! ### Helper lemmas -/

/-- Lower bound of the generated code: with `0 ≤ q`,
`Math.floor(100000 + q * 900000)` is at least `100000`. -/
theorem genOtp_lb {q : ℚ} (h0 : 0 ≤ q) : 100000 ≤ genOtp q := by
  apply Int.le_floor.mpr
  push_cast
  nlinarith

/-- Upper bound of the generated code: with `q < 1`,
`Math.floor(100000 + q * 900000)` is at most `999999`. -/
theorem genOtp_ub {q : ℚ} (h1 : q < 1) : genOtp q ≤ 999999 := by
  have h : genOtp q < 1000000 := by
    apply Int.floor_lt.mpr
    push_cast
    nlinarith
  omega

/-- A generated code is never `0`, hence never falsy. -/
theorem genOtp_ne_zero {q : ℚ} (h0 : 0 ≤ q) : genOtp q ≠ 0 := by
  have h := genOtp_lb h0
  omega

/-- Running `verify` on a present, truthy, loosely-equal code: success and deletion. -/
theorem verify_hit {store : OtpStore} {p : String} {c : Int} {v : JSVal}
    (hs : store p = some c) (hc : c ≠ 0) (he : looseEq c v = true) :
    verify store p v = (true, fun r => if r = p then none else store r) := by
  unfold verify
  rw [hs]
  simp [jsTruthy, looseEqOpt, he, bne_iff_ne, hc]

/-- Running `verify` when the truthiness-and-equality guard fails: failure, store
unchanged. -/
theorem verify_miss {store : OtpStore} {p : String} {v : JSVal}
    (h : (jsTruthy (store p) && looseEqOpt (store p) v) = false) :
    verify store p v = (false, store) := by
  unfold verify
  simp [h]

/-- The code returned by `issue` is the generated one. -/
theorem issue_fst (store : OtpStore) (p : String) (q : ℚ) :
    (issue store p q).1 = genOtp q := rfl

/-- The map produced by `issue` holds the generated code under its key. -/
theorem issue_snd_self (store : OtpStore) (p : String) (q : ℚ) :
    (issue store p q).2 p = some (genOtp q) := by
  simp [issue]

/-! ### Claim theorems -/

/-- C9.  Frame property of the registry: `issue store p q` and
`verify store p v` leave the entry of every other key `r ≠ p` exactly as it
was — present or absent, the only key either operation can create, change or
delete is the one it was called with. -/
theorem otp_registry_frame (store : OtpStore) (p r : String) (q : ℚ)
    (v : JSVal) (hr : r ≠ p) :
    (issue store p q).2 r = store r ∧ (verify store p v).2 r = store r := by
  constructor
  · simp [issue, hr]
  · unfold verify
    split
    · simp [hr]
    · rfl

/-- Witness for C9 at concrete inputs. -/
theorem otp_registry_frame_witness :
    (issue (fun _ => none) "+15550001111" 0).2 "+15550002222" = none ∧
      (verify (fun _ => none) "+15550001111" (.num 123456)).2 "+15550002222"
        = none :=
  otp_registry_frame (fun _ => none) "+15550001111" "+15550002222" 0
    (.num 123456) (by decide)

/-- C3.  One-shot verification: after `issue store p q` yields the code `c`,
the first `verify p c` succeeds (and consumes the entry) and an immediately
following second `verify p c`, with no intervening issue, fails. -/
theorem otp_verify_once (store : OtpStore) (p : String) (q : ℚ)
    (h0 : 0 ≤ q) (h1 : q < 1) :
    (verify (issue store p q).2 p (.num (issue store p q).1)).1 = true ∧
      (verify (verify (issue store p q).2 p
          (.num (issue store p q).1)).2 p (.num (issue store p q).1)).1
        = false := by
  have hc : genOtp q ≠ 0 := genOtp_ne_zero h0
  have h1st := verify_hit (issue_snd_self store p q) hc
    (v := .num (genOtp q)) (by simp [looseEq])
  rw [issue_fst, h1st]
  exact ⟨rfl, by rw [verify_miss (by simp [jsTruthy])]⟩

/-- Witness for C3 at concrete inputs. -/
theorem otp_verify_once_witness :
    (verify (issue (fun _ => none) "+15551234567" (1/2)).2 "+15551234567"
        (.num (issue (fun _ => none) "+15551234567" (1/2)).1)).1 = true ∧
      (verify (verify (issue (fun _ => none) "+15551234567" (1/2)).2
          "+15551234567"
          (.num (issue (fun _ => none) "+15551234567" (1/2)).1)).2
        "+15551234567"
        (.num (issue (fun _ => none) "+15551234567" (1/2)).1)).1 = false :=
  otp_verify_once (fun _ => none) "+15551234567" (1/2) (by norm_num)
    (by norm_num)

/-- C4.  Re-issue invalidates the first code: after `issue p → c1` then
`issue p → c2` with `c1 ≠ c2`, verifying `c1` fails (store unchanged) and
verifying `c2` succeeds. -/
theorem otp_reissue_invalidates (store : OtpStore) (p : String) (q1 q2 : ℚ)
    (h10 : 0 ≤ q1) (h11 : q1 < 1) (h20 : 0 ≤ q2) (h21 : q2 < 1)
    (hne : genOtp q1 ≠ genOtp q2) :
    (verify (issue (issue store p q1).2 p q2).2 p (.num (genOtp q1))).1
        = false ∧
      (verify (issue (issue store p q1).2 p q2).2 p (.num (genOtp q1))).2
        = (issue (issue store p q1).2 p q2).2 ∧
      (verify (issue (issue store p q1).2 p q2).2 p (.num (genOtp q2))).1
        = true := by
  have hs2 : (issue (issue store p q1).2 p q2).2 p = some (genOtp q2) :=
    issue_snd_self _ p q2
  have hmiss : (jsTruthy ((issue (issue store p q1).2 p q2).2 p) &&
      looseEqOpt ((issue (issue store p q1).2 p q2).2 p)
        (.num (genOtp q1))) = false := by
    rw [hs2]
    simp [jsTruthy, looseEqOpt, looseEq]
    intro
    omega
  rw [verify_miss hmiss,
    verify_hit hs2 (genOtp_ne_zero h20) (v := .num (genOtp q2))
      (by simp [looseEq])]
  exact ⟨rfl, rfl, rfl⟩

/-- Witness for C4 at concrete inputs (`q1 = 0` gives code `100000`,
`q2 = 1/2` gives code `550000`). -/
theorem otp_reissue_invalidates_witness :
    (verify (issue (issue (fun _ => none) "+15551234567" 0).2 "+15551234567"
        (1/2)).2 "+15551234567" (.num (genOtp 0))).1 = false ∧
      (verify (issue (issue (fun _ => none) "+15551234567" 0).2
          "+15551234567" (1/2)).2 "+15551234567" (.num (genOtp 0))).2
        = (issue (issue (fun _ => none) "+15551234567" 0).2 "+15551234567"
            (1/2)).2 ∧
      (verify (issue (issue (fun _ => none) "+15551234567" 0).2
          "+15551234567" (1/2)).2 "+15551234567" (.num (genOtp (1/2)))).1
        = true :=
  otp_reissue_invalidates (fun _ => none) "+15551234567" 0 (1/2)
    (by norm_num) (by norm_num) (by norm_num) (by norm_num)
    (by norm_num [genOtp])

/-- A sample registry state with one pending code, used by concrete
witnesses. -/
def wStore : OtpStore := fun r => if r = "+15551234567" then some 123456 else none

/-- The sample registry state satisfies the registry invariant. -/
theorem wStore_valid : ValidStore wStore := by
  intro p c h
  by_cases hp : p = "+15551234567" <;> simp [wStore, hp] at h <;> omega

/-- C1.  Contract of `verify` on registry states satisfying the invariant
(every stored code lies in `[100000, 999999]`, see `otp_store_invariant`):
it returns `true` and removes the pending entry for the key exactly when a
pending code exists for the key and equals the submitted value under loose
numeric/string equality; in every other case — wrong code or absent entry
alike — it returns `false` and leaves the store, hence any existing entry,
unchanged. -/
theorem otp_verify_contract (store : OtpStore) (hv : ValidStore store)
    (p : String) (v : JSVal) :
    ((verify store p v).1 = true ↔
        ∃ c, store p = some c ∧ looseEq c v = true) ∧
      ((verify store p v).1 = true →
        (verify store p v).2 p = none ∧
          ∀ r, r ≠ p → (verify store p v).2 r = store r) ∧
      ((verify store p v).1 = false → (verify store p v).2 = store) := by
  cases hsp : store p with
  | none =>
    rw [verify_miss (by rw [hsp]; rfl)]
    refine ⟨by simp [hsp], by simp, fun _ => rfl⟩
  | some c =>
    have hc : c ≠ 0 := by
      have := hv p c hsp
      omega
    cases he : looseEq c v with
    | false =>
      rw [verify_miss (by rw [hsp]; simp [jsTruthy, looseEqOpt, he])]
      refine ⟨?_, by simp, fun _ => rfl⟩
      constructor
      · intro h
        simp at h
      · rintro ⟨c', hc', he'⟩
        injection hc' with hcc
        subst hcc
        simp [he] at he'
    | true =>
      rw [verify_hit hsp hc he]
      refine ⟨iff_of_true rfl ⟨c, rfl, he⟩, ?_, fun h => nomatch h⟩
      intro _
      refine ⟨by simp, fun r hr => by simp [hr]⟩

/-- Witness for C1: the sample state holds code `123456` for the sample key,
and submitting the string `"123456"` verifies and consumes the entry. -/
theorem otp_verify_contract_witness :
    (verify wStore "+15551234567" (.str "123456")).1 = true ∧
      (verify wStore "+15551234567" (.str "123456")).2 "+15551234567"
        = none := by
  have h := otp_verify_contract wStore wStore_valid "+15551234567"
    (.str "123456")
  have h1 : (verify wStore "+15551234567" (.str "123456")).1 = true :=
    h.1.mpr ⟨123456, by decide, by decide⟩
  exact ⟨h1, (h.2.1 h1).1⟩

/-- C2.  Contract of `issue` for a random sample `q ∈ [0,1)`: the generated
code lies in `[100000, 999999]`, it is stored under the key (overwriting
unconditionally whatever was there) and it is also the returned value.
Uniformity over the 900000 possible codes is captured by the last conjunct:
the set of samples producing any given code `k` is the interval
`[(k-100000)/900000, (k-100000+1)/900000)`, of the same length `1/900000`
for every `k`, so a uniform `Math.random()` induces a uniform code. -/
theorem otp_issue_contract (store : OtpStore) (p : String) (q : ℚ)
    (h0 : 0 ≤ q) (h1 : q < 1) :
    (100000 ≤ (issue store p q).1 ∧ (issue store p q).1 ≤ 999999) ∧
      (issue store p q).2 p = some (issue store p q).1 ∧
      (∀ k : Int, (issue store p q).1 = k ↔
        ((k : ℚ) - 100000) / 900000 ≤ q ∧
          q < ((k : ℚ) - 100000 + 1) / 900000) := by
  refine ⟨⟨genOtp_lb h0, genOtp_ub h1⟩, issue_snd_self store p q, ?_⟩
  intro k
  rw [issue_fst]
  unfold genOtp
  rw [Int.floor_eq_iff, div_le_iff₀ (by norm_num : (0:ℚ) < 900000),
    lt_div_iff₀ (by norm_num : (0:ℚ) < 900000)]
  constructor <;> rintro ⟨ha, hb⟩ <;> exact ⟨by linarith, by linarith⟩

/-- Witness for C2 at `q = 1/2` (code `550000`), with the uniformity
conjunct instantiated at `k = 550000`. -/
theorem otp_issue_contract_witness :
    (100000 ≤ (issue (fun _ => none) "+15551234567" (1/2)).1 ∧
        (issue (fun _ => none) "+15551234567" (1/2)).1 ≤ 999999) ∧
      (issue (fun _ => none) "+15551234567" (1/2)).2 "+15551234567"
        = some (issue (fun _ => none) "+15551234567" (1/2)).1 ∧
      ((issue (fun _ => none) "+15551234567" (1/2)).1 = 550000 ↔
        (((550000 : Int) : ℚ) - 100000) / 900000 ≤ 1/2 ∧
          (1/2 : ℚ) < (((550000 : Int) : ℚ) - 100000 + 1) / 900000) := by
  have h := otp_issue_contract (fun _ => none) "+15551234567" (1/2)
    (by norm_num) (by norm_num)
  exact ⟨h.1, h.2.1, h.2.2 550000⟩

/-- C10.  Registry invariant: starting from a state whose stored codes all
lie in `[100000, 999999]`, both `issue` (with a random sample in `[0,1)`)
and `verify` preserve this; consequently every stored code is truthy, so the
truthiness guard `otpStore[phone]` of `verify` coincides with key presence
and never misclassifies a genuinely pending code as absent. -/
theorem otp_store_invariant (store : OtpStore) (hv : ValidStore store)
    (p : String) (q : ℚ) (h0 : 0 ≤ q) (h1 : q < 1) (v : JSVal) :
    ValidStore (issue store p q).2 ∧ ValidStore (verify store p v).2 ∧
      (∀ r, jsTruthy (store r) = (store r).isSome) := by
  refine ⟨?_, ?_, ?_⟩
  · intro p' c h
    by_cases hp : p' = p
    · rw [hp] at h
      rw [issue_snd_self] at h
      cases h
      exact ⟨genOtp_lb h0, genOtp_ub h1⟩
    · simp only [issue, hp, if_neg hp] at h
      exact hv p' c h
  · intro p' c h
    unfold verify at h
    split at h
    · simp only at h
      by_cases hp : p' = p
      · simp [hp] at h
      · simp only [if_neg hp] at h
        exact hv p' c h
    · exact hv p' c h
  · intro r
    cases hr : store r with
    | none => rfl
    | some c =>
      have := hv r c hr
      simp [jsTruthy, bne_iff_ne]
      omega

/-- Witness for C10 at the sample state. -/
theorem otp_store_invariant_witness :
    ValidStore (issue wStore "+15550001111" (1/2)).2 ∧
      ValidStore (verify wStore "+15550001111" (.num 7)).2 ∧
      (∀ r, jsTruthy (wStore r) = (wStore r).isSome) :=
  otp_store_invariant wStore wStore_valid "+15550001111" (1/2)
    (by norm_num) (by norm_num) (.num 7)

/-- C5.  Token Issuer contract: a token issued at time `now` verifies
successfully — returning the embedded `phone` claim — at any clock time `t`
up to 24 hours (86400 s) after issuance, and verification fails with
`ExpiredOrInvalid` both once the clock exceeds issuance + 24h and whenever
the signature does not verify (checked against a different secret). -/
theorem token_issuer_contract (secret phone : String) (now t : Int) :
    (t ≤ now + 86400 →
      verifyToken secret (issueToken secret phone now) t = .ok phone) ∧
      (now + 86400 < t →
        verifyToken secret (issueToken secret phone now) t
          = .error .ExpiredOrInvalid) ∧
      (∀ s2, s2 ≠ secret →
        verifyToken s2 (issueToken secret phone now) t
          = .error .ExpiredOrInvalid) := by
  refine ⟨fun h => ?_, fun h => ?_, fun s2 hs => ?_⟩
  · unfold verifyToken issueToken
    rw [if_pos ⟨rfl, h⟩]
  · unfold verifyToken issueToken
    rw [if_neg]
    rintro ⟨-, h2⟩
    simp only at h2
    omega
  · unfold verifyToken issueToken
    rw [if_neg]
    rintro ⟨h2, -⟩
    exact hs h2.symm

/-- Witness for C5: a token issued at time `0` verifies at the 24-hour mark,
fails one second later, and fails against the wrong secret. -/
theorem token_issuer_contract_witness :
    verifyToken "k" (issueToken "k" "+15551234567" 0) 86400
        = .ok "+15551234567" ∧
      verifyToken "k" (issueToken "k" "+15551234567" 0) 86401
        = .error .ExpiredOrInvalid ∧
      verifyToken "bad" (issueToken "k" "+15551234567" 0) 0
        = .error .ExpiredOrInvalid :=
  ⟨(token_issuer_contract "k" "+15551234567" 0 86400).1 (by omega),
    (token_issuer_contract "k" "+15551234567" 0 86401).2.1 (by omega),
    (token_issuer_contract "k" "+15551234567" 0 0).2.2 "bad" (by decide)⟩

/-- A sample well-formed request body for the `/add-student` witnesses. -/
def wBody : StudentBody :=
  { name := some "A", phone := some "+15550001111", email := none,
    class_name := some "5", sectionF := some "B" }

/-- A sample stored student row for the `/add-student` witnesses. -/
def wStudent : Student :=
  { name := "B", phone := "+15550001111", email := some "x@y.z",
    class_name := "5", sectionF := "B" }

/-- C7.  Authentication gate of `/add-student`: a missing Authorization
header or one not starting with `"Bearer "` yields 401, a well-formed header
whose token fails `jwt.verify` yields 403, and in both failure cases the
route's store-access flag is `false` — the middleware rejects before the
handler body, hence before any Credential Store access, can run. -/
theorem add_student_auth_gate (jv : String → Except AuthError String)
    (ah : Option String) (body : StudentBody) (check : CheckOutcome)
    (ins : InsertOutcome) :
    (ah = none →
      addStudentRoute jv ah body check ins = (.error 401, false)) ∧
      (∀ h, ah = some h → "Bearer ".data.isPrefixOf h.data = false →
        addStudentRoute jv ah body check ins = (.error 401, false)) ∧
      (∀ h e, ah = some h → "Bearer ".data.isPrefixOf h.data = true →
        jv (String.mk ((splitOnChar ' ' h.data).getD 1 [])) = .error e →
        addStudentRoute jv ah body check ins = (.error 403, false)) := by
  refine ⟨fun h => ?_, fun h hh hpre => ?_, fun h e hh hpre hjv => ?_⟩
  · subst h
    rfl
  · subst hh
    simp [addStudentRoute, authenticateToken, hpre]
  · subst hh
    have h403 : authenticateToken jv (some h) = Except.error 403 := by
      simp only [authenticateToken]
      rw [if_pos hpre, hjv]
    simp only [addStudentRoute, h403]

/-- Witness for C7: a missing header, a malformed header and a rejected
token at concrete inputs. -/
theorem add_student_auth_gate_witness :
    addStudentRoute (fun _ => .error .ExpiredOrInvalid) none wBody .noRow
        (.ok []) = (.error 401, false) ∧
      addStudentRoute (fun _ => .error .ExpiredOrInvalid) (some "Token x")
        wBody .noRow (.ok []) = (.error 401, false) ∧
      addStudentRoute (fun _ => .error .ExpiredOrInvalid) (some "Bearer x")
        wBody .noRow (.ok []) = (.error 403, false) :=
  ⟨(add_student_auth_gate (fun _ => .error .ExpiredOrInvalid) none wBody
      .noRow (.ok [])).1 rfl,
    (add_student_auth_gate (fun _ => .error .ExpiredOrInvalid)
      (some "Token x") wBody .noRow (.ok [])).2.1 "Token x" rfl (by decide),
    (add_student_auth_gate (fun _ => .error .ExpiredOrInvalid)
      (some "Bearer x") wBody .noRow (.ok [])).2.2 "Bearer x"
      .ExpiredOrInvalid rfl (by decide) rfl⟩

/-- C8.  `/send-otp` is not atomic with respect to delivery failure: for a
truthy phone and a delivery that fails, the handler reports the 500
`DeliveryError`, yet the freshly generated code has already been stored —
overwriting whatever entry the key had — and is not rolled back: it remains
verifiable.  Other keys are untouched. -/
theorem send_otp_not_atomic (store : OtpStore) (p : String) (q : ℚ)
    (h0 : 0 ≤ q) (h1 : q < 1) (hp : p.isEmpty = false) :
    (sendOtpHandler store (some p) q false).1 = .deliveryError ∧
      (sendOtpHandler store (some p) q false).2 p = some (genOtp q) ∧
      (∀ r, r ≠ p → (sendOtpHandler store (some p) q false).2 r = store r) ∧
      (verify (sendOtpHandler store (some p) q false).2 p
          (.num (genOtp q))).1 = true := by
  have hsend : sendOtpHandler store (some p) q false
      = (.deliveryError,
          fun r => if r = p then some (genOtp q) else store r) := by
    simp [sendOtpHandler, hp]
  rw [hsend]
  refine ⟨rfl, by simp, fun r hr => by simp [hr], ?_⟩
  rw [verify_hit (c := genOtp q) (by simp) (genOtp_ne_zero h0)
    (by simp [looseEq])]

/-- Witness for C8 at concrete inputs: the failed delivery still leaves the
code `550000` stored for its key, other entries untouched, and the
undelivered code verifies. -/
theorem send_otp_not_atomic_witness :
    (sendOtpHandler wStore (some "+15550001111") (1/2) false).1
        = .deliveryError ∧
      (sendOtpHandler wStore (some "+15550001111") (1/2) false).2
          "+15550001111" = some (genOtp (1/2)) ∧
      (sendOtpHandler wStore (some "+15550001111") (1/2) false).2
          "+15551234567" = wStore "+15551234567" ∧
      (verify (sendOtpHandler wStore (some "+15550001111") (1/2) false).2
          "+15550001111" (.num (genOtp (1/2)))).1 = true := by
  have h := send_otp_not_atomic wStore "+15550001111" (1/2) (by norm_num)
    (by norm_num) (by decide)
  exact ⟨h.1, h.2.1, h.2.2.1 "+15551234567" (by decide), h.2.2.2⟩

/-- Request body falsifying C6 as stated: every required field is present
(none is absent), but `name` is the empty string. -/
def cexBody : StudentBody :=
  { name := some "", phone := some "+15551234567", email := some "a@b.c",
    class_name := some "5", sectionF := some "A" }

/-- An existing row matching the counterexample body's phone. -/
def cexStudent : Student :=
  { name := "B", phone := "+15551234567", email := some "x@y.z",
    class_name := "5", sectionF := "A" }

/-- Counterexample to C6 as stated: with every required field present but
`name` the empty string, and with the existence check finding a matching
record, the claim's precedence demands `Conflict` (409); the handler instead
returns 400, because line 101 tests JavaScript truthiness (`!name`), not
absence. -/
theorem add_student_validation_cex :
    (cexBody.name ≠ none ∧ cexBody.phone ≠ none ∧
        cexBody.class_name ≠ none ∧ cexBody.sectionF ≠ none) ∧
      (addStudentHandler cexBody (.found cexStudent) (.ok [])).1
        = .error 400 ∧
      (addStudentHandler cexBody (.found cexStudent) (.ok [])).1
        ≠ .error 409 := by
  decide

/-- C6 (amended).  The handler applies validation, existence check and
insert in that order with this error precedence: it rejects with 400 if any
of `name`, `phone`, `class_name`, `section` is absent or falsy (e.g. the
empty string) — without contacting the store; otherwise it consults the
store and fails with 409 if a matching record exists, regardless of the
email value; a check failure with a code other than `"PGRST116"` ("no row
found") yields 500; otherwise it inserts, returning the inserted data on
success and 500 if the insert itself fails. -/
theorem add_student_precedence (body : StudentBody) (check : CheckOutcome)
    (ins : InsertOutcome) :
    ((jsStrTruthy body.name && jsStrTruthy body.phone &&
        jsStrTruthy body.class_name && jsStrTruthy body.sectionF) = false →
      addStudentHandler body check ins = (.error 400, false)) ∧
      ((jsStrTruthy body.name && jsStrTruthy body.phone &&
          jsStrTruthy body.class_name && jsStrTruthy body.sectionF) = true →
        (∀ r, check = .found r →
          addStudentHandler body check ins = (.error 409, true)) ∧
        (∀ c, check = .err c → c ≠ "PGRST116" →
          addStudentHandler body check ins = (.error 500, true)) ∧
        ((check = .noRow ∨ check = .err "PGRST116") →
          (∀ d, ins = .ok d →
            addStudentHandler body check ins = (.success d, true)) ∧
          (∀ m, ins = .fail m →
            addStudentHandler body check ins = (.error 500, true)))) := by
  constructor
  · intro h
    simp [addStudentHandler, h]
  · intro h
    refine ⟨fun r hr => ?_, fun c hc hne => ?_, fun hnr => ?_⟩
    · subst hr
      simp [addStudentHandler, h]
    · subst hc
      simp [addStudentHandler, h, hne]
    · have : check = CheckOutcome.noRow ∨ check = CheckOutcome.err "PGRST116" := hnr
      rcases this with h1 | h1 <;> subst h1 <;>
        exact ⟨fun d hd => by subst hd; simp [addStudentHandler, h],
          fun m hm => by subst hm; simp [addStudentHandler, h]⟩

/-- Witness for the amended C6: a truthy body with a phone-matching existing
record yields 409. -/
theorem add_student_precedence_witness :
    addStudentHandler wBody (.found wStudent) (.ok []) = (.error 409, true) :=
  ((add_student_precedence wBody (.found wStudent) (.ok [])).2
    (by decide)).1 wStudent rfl

end SchoolAi
